import Mathlib

/-!
Shallow embedding of the wait-human TypeScript client (`src/WaitHuman.ts`,
`src/types.ts`).  The remote transport is modelled as an explicit
environment: the create call's outcome is a `CreateResponse`, and the
poll loop reads, at its n-th iteration, the n-th entry of a `PollEnv`
(the response of the n-th poll call together with the elapsed wall-clock
seconds observed at the top of that iteration).  The unbounded `while`
loop of `pollForAnswer` is given fuel; a `none` result means the loop is
still running after that many iterations.  Every network request the
client issues is recorded in a `NetCall` trace so that claims about
requests never being issued are statable.
-/

namespace WaitHumanSpec

/-- Question delivery method (`QuestionMethod`); only variant is `push`. -/
inductive QuestionMethod where
  | push
deriving DecidableEq, Repr

/-- Requested answer shape (`AnswerFormat`). -/
inductive AnswerFormat where
  | free_text
  | options (options : List String) (multiple : Bool)
deriving DecidableEq, Repr

/-- The request payload (`ConfirmationQuestion`). -/
structure ConfirmationQuestion where
  method : QuestionMethod
  subject : String
  body : Option String
  answer_format : AnswerFormat
deriving DecidableEq, Repr

/-- Answer content returned by the remote side (`AnswerContent`). -/
inductive AnswerContent where
  | free_text (text : String)
  | options (selected_indexes : List Int)
deriving DecidableEq, Repr

/-- The `type` discriminator string of an answer content value. -/
def AnswerContent.typeName : AnswerContent → String
  | AnswerContent.free_text _ => "free_text"
  | AnswerContent.options _ => "options"

/-- Inner answer object: the part of the envelope holding `answer_content`. -/
structure ConfirmationAnswerBody where
  answer_content : AnswerContent
deriving DecidableEq, Repr

/-- The answer envelope (`ConfirmationAnswerWithDate`); the client reads
only `.answer.answer_content`. -/
structure ConfirmationAnswer where
  answer : ConfirmationAnswerBody
deriving DecidableEq, Repr

/-- The closed error-reason union of `WaitHumanError.reason` (types.ts). -/
inductive ErrorReason where
  | timeout
  | network_error
  | invalid_response
  | create_failed
  | poll_failed
  | unexpected_answer_type
deriving DecidableEq, Repr

/-- The literal string of each error reason, as interpolated into thrown
error messages. -/
def ErrorReason.text : ErrorReason → String
  | ErrorReason.timeout => "timeout"
  | ErrorReason.network_error => "network_error"
  | ErrorReason.invalid_response => "invalid_response"
  | ErrorReason.create_failed => "create_failed"
  | ErrorReason.poll_failed => "poll_failed"
  | ErrorReason.unexpected_answer_type => "unexpected_answer_type"

/-- `WaitHumanError` (types.ts): a reason plus optional description. -/
structure WaitHumanError where
  reason : ErrorReason
  description : Option String
deriving DecidableEq, Repr

/-- `Result<T>` (types.ts): exactly one of `data` or `error`. -/
inductive Result (T : Type) where
  | data (d : T)
  | error (e : WaitHumanError)
deriving DecidableEq, Repr

/-- `AskOptions` (types.ts): optional timeout in seconds. -/
structure AskOptions where
  timeoutSeconds : Option ℚ
deriving DecidableEq, Repr

/-- Parsed success body of `POST /confirmations/create`. -/
structure CreateData where
  confirmation_request_id : String
deriving DecidableEq, Repr

/-- Outcome of the single create call: a transport exception (`throws`),
or a response with a truthy-or-not `error`, the `response.statusText`,
and the parsed body (absent when the call returned no data). -/
inductive CreateResponse where
  | throws
  | resp (error : Bool) (statusText : String) (data : Option CreateData)
deriving DecidableEq, Repr

/-- Parsed success body of `GET /confirmations/get/...`. -/
structure PollData where
  maybe_answer : Option ConfirmationAnswer
deriving DecidableEq, Repr

/-- Outcome of one poll call, in the same shape as `CreateResponse`. -/
inductive PollResponse where
  | throws
  | resp (error : Bool) (statusText : String) (data : Option PollData)
deriving DecidableEq, Repr

/-- Environment of one `ask` invocation's poll loop: `responses n` is the
outcome of the n-th poll call, `elapsed n` the elapsed seconds measured
at the top of the n-th loop iteration. -/
structure PollEnv where
  responses : Nat → PollResponse
  elapsed : Nat → ℚ

/-- A network request issued by the client, as recorded in the trace. -/
inductive NetCall where
  | create (question : ConfirmationQuestion)
  | poll (confirmation_id : String)
deriving DecidableEq, Repr

/-- Default endpoint (`DEFAULT_BACKEND_ENDPOINT`). -/
def DEFAULT_BACKEND_ENDPOINT : String := "https://api.waithuman.com"

/-- JS `endpoint.endsWith("/")`: the last character is a slash. -/
def jsEndsWithSlash (s : String) : Bool :=
  match s.data.getLast? with
  | some c => c == '/'
  | none => false

/-- JS `endpoint.slice(0, -1)`: the string minus its last character. -/
def jsDropLastChar (s : String) : String :=
  String.mk s.data.dropLast

/-- The state a successfully constructed facade holds: the api key and
the base url handed to `createApiClient`. -/
structure FacadeState where
  apiKey : String
  endpoint : String
deriving DecidableEq, Repr

/-- Endpoint normalisation performed by the constructor: strip a
trailing slash if present. -/
def normalizeEndpoint (endpoint : String) : String :=
  if jsEndsWithSlash endpoint then jsDropLastChar endpoint else endpoint

/-- The `WaitHuman` constructor.  `config.apiKey` is modelled as
`Option String` (untyped JS callers can omit it); the falsy check
`!config.apiKey` rejects both an absent and an empty key.  The endpoint
defaults via `??` and then loses a trailing slash. -/
def mkWaitHuman (apiKey : Option String) (endpoint : Option String) :
    Except String FacadeState :=
  match apiKey with
  | none => Except.error "apiKey is mandatory"
  | some k =>
    if k = "" then Except.error "apiKey is mandatory"
    else Except.ok ⟨k, normalizeEndpoint (endpoint.getD DEFAULT_BACKEND_ENDPOINT)⟩

/-- `createConfirmation`: classify the create call's outcome.  A thrown
transport exception yields `network_error`; `error || !data` yields
`create_failed` with the remote status text; otherwise the confirmation
request id is extracted. -/
def createConfirmation : CreateResponse → Result String
  | CreateResponse.throws => Result.error ⟨ErrorReason.network_error, none⟩
  | CreateResponse.resp err st d =>
    if err then Result.error ⟨ErrorReason.create_failed, some st⟩
    else
      match d with
      | none => Result.error ⟨ErrorReason.create_failed, some st⟩
      | some cd => Result.data cd.confirmation_request_id

/-- The fixed inter-poll delay (`pollIntervalMs`). -/
def pollIntervalMs : ℕ := 3000

/-- The poll interval in seconds. -/
def pollIntervalSeconds : ℚ := (pollIntervalMs : ℚ) / 1000

/-- JS truthiness of `data && data.maybe_answer` on a poll response body. -/
def pollAnswer (d : Option PollData) : Option ConfirmationAnswer :=
  d.bind PollData.maybe_answer

/-- The loop-top deadline check `timeoutSeconds != null && elapsedSeconds
> timeoutSeconds`. -/
def timedOut (timeoutSeconds : Option ℚ) (elapsedSeconds : ℚ) : Bool :=
  match timeoutSeconds with
  | none => false
  | some t => decide (t < elapsedSeconds)

/-- `pollForAnswer`: the poll loop, with fuel.  Arguments after the
timeout are the remaining fuel and the current iteration index.  Returns
the loop's result (`none` when fuel ran out with the loop still going)
and the list of poll requests issued from this iteration on. -/
def pollForAnswer (env : PollEnv) (confirmationId : String)
    (timeoutSeconds : Option ℚ) :
    Nat → Nat → Option (Result ConfirmationAnswer) × List NetCall
  | 0, _ => (none, [])
  | fuel+1, n =>
    if timedOut timeoutSeconds (env.elapsed n) then
      (some (Result.error ⟨ErrorReason.timeout,
        some ("elapsed seconds: " ++ toString (env.elapsed n))⟩), [])
    else
      match env.responses n with
      | PollResponse.throws =>
        (some (Result.error ⟨ErrorReason.network_error, none⟩),
         [NetCall.poll confirmationId])
      | PollResponse.resp err st d =>
        if err then
          (some (Result.error ⟨ErrorReason.poll_failed, some st⟩),
           [NetCall.poll confirmationId])
        else
          match pollAnswer d with
          | some ans => (some (Result.data ans), [NetCall.poll confirmationId])
          | none =>
            ((pollForAnswer env confirmationId timeoutSeconds fuel (n+1)).1,
             NetCall.poll confirmationId ::
               (pollForAnswer env confirmationId timeoutSeconds fuel (n+1)).2)

/-- `options?.timeoutSeconds` as handed to the poll loop. -/
def askTimeout (options : Option AskOptions) : Option ℚ :=
  options.bind AskOptions.timeoutSeconds

/-- `ask`: create, then — only if creation succeeded — poll.  Returns
the result together with the full network trace of the invocation. -/
def ask (cenv : CreateResponse) (penv : PollEnv)
    (question : ConfirmationQuestion) (options : Option AskOptions)
    (fuel : Nat) : Option (Result ConfirmationAnswer) × List NetCall :=
  match createConfirmation cenv with
  | Result.error e => (some (Result.error e), [NetCall.create question])
  | Result.data cid =>
    ((pollForAnswer penv cid (askTimeout options) fuel 0).1,
     NetCall.create question ::
       (pollForAnswer penv cid (askTimeout options) fuel 0).2)

/-- The message of the exception thrown by the typed helpers on an
engine `{ error }`. -/
def errorMessage (e : WaitHumanError) : String :=
  "WaitHuman Error: " ++ e.reason.text ++ " " ++ e.description.getD ""

/-- The question built by `askFreeText`. -/
def freeTextQuestion (subject : String) (body : Option String) :
    ConfirmationQuestion :=
  ⟨QuestionMethod.push, subject, body, AnswerFormat.free_text⟩

/-- `askFreeText`: build a free-text question, run `ask`, then unwrap.
Thrown errors are modelled as `Except.error` of the message; `none`
means the underlying loop ran out of fuel. -/
def askFreeText (cenv : CreateResponse) (penv : PollEnv) (subject : String)
    (body : Option String) (options : Option AskOptions) (fuel : Nat) :
    Option (Except String String) :=
  match (ask cenv penv (freeTextQuestion subject body) options fuel).1 with
  | none => none
  | some (Result.error e) => some (Except.error (errorMessage e))
  | some (Result.data d) =>
    match d.answer.answer_content with
    | AnswerContent.free_text text => some (Except.ok text)
    | c =>
      some (Except.error
        ("Unexpected answer type: " ++ c.typeName ++
         ". Expected \x27free_text\x27."))

/-- The question built by `askMultipleChoice`. -/
def multipleChoiceQuestion (subject : String) (choices : List String)
    (body : Option String) : ConfirmationQuestion :=
  ⟨QuestionMethod.push, subject, body, AnswerFormat.options choices false⟩

/-- `askMultipleChoice`: build an options question, run `ask`, then
validate the first selected index and return the chosen option. -/
def askMultipleChoice (cenv : CreateResponse) (penv : PollEnv)
    (subject : String) (choices : List String) (body : Option String)
    (options : Option AskOptions) (fuel : Nat) :
    Option (Except String String) :=
  match (ask cenv penv (multipleChoiceQuestion subject choices body)
      options fuel).1 with
  | none => none
  | some (Result.error e) => some (Except.error (errorMessage e))
  | some (Result.data d) =>
    match d.answer.answer_content with
    | AnswerContent.options selected_indexes =>
      match selected_indexes.head? with
      | none => some (Except.error "Invalid selected index received: undefined")
      | some selectedIndex =>
        if selectedIndex < 0 ∨ (choices.length : Int) ≤ selectedIndex then
          some (Except.error
            ("Invalid selected index received: " ++ toString selectedIndex))
        else
          match choices.get? selectedIndex.toNat with
          | none =>
            some (Except.error
              ("Invalid selected index received: " ++ toString selectedIndex))
          | some choice => some (Except.ok choice)
    | c =>
      some (Except.error
        ("Unexpected answer type: " ++ c.typeName ++
         ". Expected \x27options\x27."))

/-! ## Shared lemmas about the poll loop -/

lemma pollForAnswer_timeout_hit (env : PollEnv) (cid : String) (t : Option ℚ)
    (fuel n : Nat) (h : timedOut t (env.elapsed n) = true) :
    pollForAnswer env cid t (fuel+1) n =
      (some (Result.error ⟨ErrorReason.timeout,
        some ("elapsed seconds: " ++ toString (env.elapsed n))⟩), []) := by
  simp [pollForAnswer, h]

lemma pollForAnswer_step (env : PollEnv) (cid : String) (t : Option ℚ)
    (fuel n : Nat) (st : String) (d : Option PollData)
    (hnt : timedOut t (env.elapsed n) = false)
    (hr : env.responses n = PollResponse.resp false st d)
    (hd : pollAnswer d = none) :
    pollForAnswer env cid t (fuel+1) n =
      ((pollForAnswer env cid t fuel (n+1)).1,
       NetCall.poll cid :: (pollForAnswer env cid t fuel (n+1)).2) := by
  simp [pollForAnswer, hnt, hr, hd]

lemma pollForAnswer_throws (env : PollEnv) (cid : String) (t : Option ℚ)
    (fuel n : Nat) (hnt : timedOut t (env.elapsed n) = false)
    (hr : env.responses n = PollResponse.throws) :
    pollForAnswer env cid t (fuel+1) n =
      (some (Result.error ⟨ErrorReason.network_error, none⟩),
       [NetCall.poll cid]) := by
  simp [pollForAnswer, hnt, hr]

lemma pollForAnswer_pollfailed (env : PollEnv) (cid : String) (t : Option ℚ)
    (fuel n : Nat) (st : String) (d : Option PollData)
    (hnt : timedOut t (env.elapsed n) = false)
    (hr : env.responses n = PollResponse.resp true st d) :
    pollForAnswer env cid t (fuel+1) n =
      (some (Result.error ⟨ErrorReason.poll_failed, some st⟩),
       [NetCall.poll cid]) := by
  simp [pollForAnswer, hnt, hr]

lemma pollForAnswer_answered (env : PollEnv) (cid : String) (t : Option ℚ)
    (fuel n : Nat) (st : String) (d : Option PollData)
    (ans : ConfirmationAnswer)
    (hnt : timedOut t (env.elapsed n) = false)
    (hr : env.responses n = PollResponse.resp false st d)
    (hd : pollAnswer d = some ans) :
    pollForAnswer env cid t (fuel+1) n =
      (some (Result.data ans), [NetCall.poll cid]) := by
  simp [pollForAnswer, hnt, hr, hd]

lemma pollForAnswer_error_reason (env : PollEnv) (cid : String) (t : Option ℚ) :
    ∀ (fuel n : Nat) (e : WaitHumanError),
      (pollForAnswer env cid t fuel n).1 = some (Result.error e) →
      e.reason = ErrorReason.timeout ∨ e.reason = ErrorReason.network_error ∨
        e.reason = ErrorReason.poll_failed := by
  intro fuel
  induction fuel with
  | zero => intro n e h; exact Option.noConfusion h
  | succ fuel ih =>
    intro n e h
    by_cases hto : timedOut t (env.elapsed n) = true
    · rw [pollForAnswer_timeout_hit env cid t fuel n hto] at h
      simp only [Option.some.injEq, Result.error.injEq] at h
      left; rw [← h]
    · have hto' : timedOut t (env.elapsed n) = false := by
        cases htv : timedOut t (env.elapsed n)
        · rfl
        · exact absurd htv hto
      cases hr : env.responses n with
      | throws =>
        rw [pollForAnswer_throws env cid t fuel n hto' hr] at h
        simp only [Option.some.injEq, Result.error.injEq] at h
        right; left; rw [← h]
      | resp err st d =>
        cases err with
        | true =>
          rw [pollForAnswer_pollfailed env cid t fuel n st d hto' hr] at h
          simp only [Option.some.injEq, Result.error.injEq] at h
          right; right; rw [← h]
        | false =>
          cases hd : pollAnswer d with
          | some ans =>
            rw [pollForAnswer_answered env cid t fuel n st d ans hto' hr hd] at h
            simp at h
          | none =>
            rw [pollForAnswer_step env cid t fuel n st d hto' hr hd] at h
            exact ih (n+1) e h

lemma pollForAnswer_none_not_timeout (env : PollEnv) (cid : String) :
    ∀ (fuel n : Nat) (desc : Option String),
      (pollForAnswer env cid none fuel n).1 ≠
        some (Result.error ⟨ErrorReason.timeout, desc⟩) := by
  intro fuel
  induction fuel with
  | zero => intro n desc h; exact Option.noConfusion h
  | succ fuel ih =>
    intro n desc h
    have hto : timedOut none (env.elapsed n) = false := rfl
    cases hr : env.responses n with
    | throws =>
      rw [pollForAnswer_throws env cid none fuel n hto hr] at h
      simp at h
    | resp err st d =>
      cases err with
      | true =>
        rw [pollForAnswer_pollfailed env cid none fuel n st d hto hr] at h
        simp at h
      | false =>
        cases hd : pollAnswer d with
        | some ans =>
          rw [pollForAnswer_answered env cid none fuel n st d ans hto hr hd] at h
          simp at h
        | none =>
          rw [pollForAnswer_step env cid none fuel n st d hto hr hd] at h
          exact ih (n+1) desc h

/-! ## Claims -/

/-- C1: for every question and options value, when the create phase
fails, `ask` returns the create-phase error unchanged and the network
trace holds only the create call — no poll request is ever issued. -/
theorem ask_create_error_propagates (cenv : CreateResponse) (penv : PollEnv)
    (q : ConfirmationQuestion) (opts : Option AskOptions) (fuel : Nat)
    (e : WaitHumanError) (h : createConfirmation cenv = Result.error e) :
    ask cenv penv q opts fuel = (some (Result.error e), [NetCall.create q]) := by
  simp [ask, h]

theorem ask_create_error_propagates_witness :
    ask CreateResponse.throws ⟨fun _ => PollResponse.throws, fun _ => 0⟩
      ⟨QuestionMethod.push, "s", none, AnswerFormat.free_text⟩ none 3 =
      (some (Result.error ⟨ErrorReason.network_error, none⟩),
       [NetCall.create ⟨QuestionMethod.push, "s", none, AnswerFormat.free_text⟩]) :=
  ask_create_error_propagates _ _ _ _ _ _ rfl

/-- C2: in the create phase, a transport exception makes `ask` return a
`network_error`; a non-success response, and a success response whose
body is missing (no `confirmation_request_id` to read), make it return
a `create_failed` whose description is the remote status text. -/
theorem ask_create_phase_classification (penv : PollEnv)
    (q : ConfirmationQuestion) (opts : Option AskOptions) (fuel : Nat)
    (st : String) (d : Option CreateData) :
    (ask CreateResponse.throws penv q opts fuel).1 =
      some (Result.error ⟨ErrorReason.network_error, none⟩)
    ∧ (ask (CreateResponse.resp true st d) penv q opts fuel).1 =
      some (Result.error ⟨ErrorReason.create_failed, some st⟩)
    ∧ (ask (CreateResponse.resp false st none) penv q opts fuel).1 =
      some (Result.error ⟨ErrorReason.create_failed, some st⟩) := by
  refine ⟨rfl, ?_, ?_⟩ <;> simp [ask, createConfirmation]

/-- C3: at any reached poll iteration, a transport exception terminates
`ask`'s loop at once with a `network_error` and no further poll call is
issued; a non-success poll response terminates it at once with a
`poll_failed` carrying the remote status text.  In both cases the trace
from that iteration on is the single failing poll call. -/
theorem poll_error_terminal (env : PollEnv) (cid : String) (t : Option ℚ)
    (fuel n : Nat) (st : String) (d : Option PollData)
    (hnt : timedOut t (env.elapsed n) = false) :
    (env.responses n = PollResponse.throws →
      pollForAnswer env cid t (fuel+1) n =
        (some (Result.error ⟨ErrorReason.network_error, none⟩),
         [NetCall.poll cid]))
    ∧ (env.responses n = PollResponse.resp true st d →
      pollForAnswer env cid t (fuel+1) n =
        (some (Result.error ⟨ErrorReason.poll_failed, some st⟩),
         [NetCall.poll cid])) := by
  constructor <;> intro hr <;> simp [pollForAnswer, hnt, hr]

theorem poll_error_terminal_witness :
    pollForAnswer ⟨fun _ => PollResponse.throws, fun _ => 0⟩ "c" none 1 0 =
      (some (Result.error ⟨ErrorReason.network_error, none⟩),
       [NetCall.poll "c"]) :=
  (poll_error_terminal ⟨fun _ => PollResponse.throws, fun _ => 0⟩ "c" none 0 0
    "" none rfl).1 rfl

lemma pollForAnswer_pending_timeout (env : PollEnv) (cid : String) (T : ℚ)
    (hp : ∀ k, ∃ st d, env.responses k = PollResponse.resp false st d ∧
      pollAnswer d = none)
    (N : Nat)
    (hbefore : ∀ k, k < N → timedOut (some T) (env.elapsed k) = false)
    (hat : timedOut (some T) (env.elapsed N) = true) :
    ∀ (fuel n : Nat), n ≤ N → N - n < fuel →
      pollForAnswer env cid (some T) fuel n =
        (some (Result.error ⟨ErrorReason.timeout,
          some ("elapsed seconds: " ++ toString (env.elapsed N))⟩),
         List.replicate (N - n) (NetCall.poll cid)) := by
  intro fuel
  induction fuel with
  | zero => intro n hn hlt; exact absurd hlt (Nat.not_lt_zero _)
  | succ fuel ih =>
    intro n hn hlt
    by_cases hnN : n = N
    · subst hnN
      rw [pollForAnswer_timeout_hit env cid (some T) fuel n hat]
      simp [Nat.sub_self]
    · have hnlt : n < N := lt_of_le_of_ne hn hnN
      obtain ⟨st, d, hr, hd⟩ := hp n
      rw [pollForAnswer_step env cid (some T) fuel n st d (hbefore n hnlt) hr hd,
        ih (n+1) (by omega) (by omega),
        show N - n = (N - (n+1)) + 1 from by omega, List.replicate_succ]

/-- C4: with `timeoutSeconds = T` (`T ≥ 0`), if no answer ever arrives
and every poll succeeds without error, the loop returns a `timeout`
error at an iteration `N` whose elapsed time is strictly above `T` and
at most `T` plus one poll interval (3 seconds), the deadline check
firing at the loop top before the `N`-th poll is dispatched (exactly `N`
poll calls appear in the trace).  With `timeoutSeconds` undefined or
null the loop can never exit through the timeout branch. -/
theorem poll_timeout_bounds (env : PollEnv) (cid : String) (T : ℚ)
    (hT : 0 ≤ T)
    (hp : ∀ k, ∃ st d, env.responses k = PollResponse.resp false st d ∧
      pollAnswer d = none)
    (ht : ∀ k, env.elapsed k = pollIntervalSeconds * k) :
    pollIntervalSeconds = 3 ∧
    (∃ N : Nat,
      T < env.elapsed N ∧ env.elapsed N ≤ T + pollIntervalSeconds ∧
      ∀ fuel, N < fuel → ∃ desc,
        pollForAnswer env cid (some T) fuel 0 =
          (some (Result.error ⟨ErrorReason.timeout, desc⟩),
           List.replicate N (NetCall.poll cid))) ∧
    (∀ (env2 : PollEnv) (cid2 : String) (fuel n : Nat) (desc : Option String),
      (pollForAnswer env2 cid2 none fuel n).1 ≠
        some (Result.error ⟨ErrorReason.timeout, desc⟩)) := by
  have hps : pollIntervalSeconds = 3 := by
    norm_num [pollIntervalSeconds, pollIntervalMs]
  have hfl := Nat.floor_le (show (0:ℚ) ≤ T/3 by linarith)
  have hflt := Nat.lt_floor_add_one (T/3)
  refine ⟨hps, ⟨⌊T/3⌋₊ + 1, ?_, ?_, ?_⟩, ?_⟩
  · rw [ht, hps]; push_cast; linarith
  · rw [ht, hps]; push_cast; linarith
  · intro fuel hfuel
    refine ⟨some ("elapsed seconds: " ++
      toString (env.elapsed (⌊T/3⌋₊ + 1))), ?_⟩
    have hat : timedOut (some T) (env.elapsed (⌊T/3⌋₊ + 1)) = true := by
      simp only [timedOut, decide_eq_true_eq]
      rw [ht, hps]; push_cast; linarith
    have hbefore : ∀ k, k < ⌊T/3⌋₊ + 1 →
        timedOut (some T) (env.elapsed k) = false := by
      intro k hk
      simp only [timedOut, decide_eq_false_iff_not, not_lt]
      rw [ht, hps]
      have hk' : (k : ℚ) ≤ (⌊T/3⌋₊ : ℚ) := by
        exact_mod_cast Nat.lt_succ_iff.mp hk
      linarith
    have := pollForAnswer_pending_timeout env cid T hp (⌊T/3⌋₊ + 1)
      hbefore hat fuel 0 (Nat.zero_le _) (by omega)
    simpa using this
  · exact fun env2 cid2 fuel n desc =>
      pollForAnswer_none_not_timeout env2 cid2 fuel n desc

/-- Environment in which every poll call succeeds but carries no answer,
and time advances by exactly one poll interval per iteration. -/
def pendingEnv : PollEnv :=
  ⟨fun _ => PollResponse.resp false "" none, fun k => pollIntervalSeconds * k⟩

theorem poll_timeout_bounds_witness :
    pollIntervalSeconds = 3 ∧
    (∃ N : Nat,
      (4:ℚ) < pendingEnv.elapsed N ∧
      pendingEnv.elapsed N ≤ 4 + pollIntervalSeconds ∧
      ∀ fuel, N < fuel → ∃ desc,
        pollForAnswer pendingEnv "c" (some 4) fuel 0 =
          (some (Result.error ⟨ErrorReason.timeout, desc⟩),
           List.replicate N (NetCall.poll "c"))) ∧
    (∀ (env2 : PollEnv) (cid2 : String) (fuel n : Nat) (desc : Option String),
      (pollForAnswer env2 cid2 none fuel n).1 ≠
        some (Result.error ⟨ErrorReason.timeout, desc⟩)) :=
  poll_timeout_bounds pendingEnv "c" 4 (by norm_num)
    (fun _ => ⟨"", none, rfl, rfl⟩) (fun _ => rfl)

/-- C5: `askMultipleChoice` builds a question whose answer format is
`options choices multiple:=false`; when the engine succeeds with an
`options` answer whose first selected index `i` satisfies
`0 ≤ i < choices.length`, it returns `choices[i]`, ignoring any further
selected indexes; concretely, choices `[a,b,c]` with selected indexes
`[1]` yield `"b"`. -/
theorem askMultipleChoice_first_index (cenv : CreateResponse)
    (penv : PollEnv) (s : String) (c : List String) (b : Option String)
    (opts : Option AskOptions) (fuel : Nat) (ans : ConfirmationAnswer)
    (i : Int) (rest : List Int) :
    (multipleChoiceQuestion s c b).answer_format =
      AnswerFormat.options c false ∧
    ((ask cenv penv (multipleChoiceQuestion s c b) opts fuel).1 =
        some (Result.data ans) →
      ans.answer.answer_content = AnswerContent.options (i :: rest) →
      0 ≤ i → i < (c.length : Int) →
      ∃ choice, c.get? i.toNat = some choice ∧
        askMultipleChoice cenv penv s c b opts fuel =
          some (Except.ok choice)) ∧
    askMultipleChoice (CreateResponse.resp false "" (some ⟨"cid"⟩))
      ⟨fun _ => PollResponse.resp false ""
        (some ⟨some ⟨⟨AnswerContent.options [1]⟩⟩⟩), fun _ => 0⟩
      "s" ["a", "b", "c"] none none 2 = some (Except.ok "b") := by
  refine ⟨rfl, ?_, rfl⟩
  intro hask hcontent h0 hlen
  have hi : i.toNat < c.length := by omega
  refine ⟨c.get ⟨i.toNat, hi⟩, List.get?_eq_get hi, ?_⟩
  simp [askMultipleChoice, hask, hcontent, not_lt.mpr h0, not_le.mpr hlen,
    List.get?_eq_get hi, List.getElem?_eq_getElem hi]

theorem askMultipleChoice_first_index_witness :
    ∃ choice, (["a", "b", "c"] : List String).get? (1 : Int).toNat =
        some choice ∧
      askMultipleChoice (CreateResponse.resp false "" (some ⟨"cid"⟩))
        ⟨fun _ => PollResponse.resp false ""
          (some ⟨some ⟨⟨AnswerContent.options [1]⟩⟩⟩), fun _ => 0⟩
        "s" ["a", "b", "c"] none none 2 = some (Except.ok choice) :=
  (askMultipleChoice_first_index (CreateResponse.resp false "" (some ⟨"cid"⟩))
    ⟨fun _ => PollResponse.resp false ""
      (some ⟨some ⟨⟨AnswerContent.options [1]⟩⟩⟩), fun _ => 0⟩
    "s" ["a", "b", "c"] none none 2 ⟨⟨AnswerContent.options [1]⟩⟩ 1 []).2.1
    rfl rfl (by norm_num) (by norm_num)

/-- C6: when the engine succeeds with an `options` answer,
`askMultipleChoice` raises an invalid-index error naming the offending
index whenever the selected indexes are empty, or the first one is
negative or at least `choices.length`; it returns no value in those
cases. -/
theorem askMultipleChoice_invalid_index (cenv : CreateResponse)
    (penv : PollEnv) (s : String) (c : List String) (b : Option String)
    (opts : Option AskOptions) (fuel : Nat) (ans : ConfirmationAnswer)
    (sel : List Int)
    (hask : (ask cenv penv (multipleChoiceQuestion s c b) opts fuel).1 =
      some (Result.data ans))
    (hcontent : ans.answer.answer_content = AnswerContent.options sel) :
    (sel = [] → askMultipleChoice cenv penv s c b opts fuel =
      some (Except.error "Invalid selected index received: undefined"))
    ∧ (∀ i rest, sel = i :: rest → (i < 0 ∨ (c.length : Int) ≤ i) →
      askMultipleChoice cenv penv s c b opts fuel =
        some (Except.error
          ("Invalid selected index received: " ++ toString i))) := by
  constructor
  · intro hsel; subst hsel
    simp [askMultipleChoice, hask, hcontent]
  · intro i rest hsel hbad; subst hsel
    simp only [askMultipleChoice, hask, hcontent, List.head?_cons]
    rw [if_pos hbad]

theorem askMultipleChoice_invalid_index_witness :
    askMultipleChoice (CreateResponse.resp false "" (some ⟨"cid"⟩))
      ⟨fun _ => PollResponse.resp false ""
        (some ⟨some ⟨⟨AnswerContent.options [5]⟩⟩⟩), fun _ => 0⟩
      "s" ["a", "b", "c"] none none 2 =
      some (Except.error
        ("Invalid selected index received: " ++ toString (5 : Int))) :=
  (askMultipleChoice_invalid_index (CreateResponse.resp false "" (some ⟨"cid"⟩))
    ⟨fun _ => PollResponse.resp false ""
      (some ⟨some ⟨⟨AnswerContent.options [5]⟩⟩⟩), fun _ => 0⟩
    "s" ["a", "b", "c"] none none 2 ⟨⟨AnswerContent.options [5]⟩⟩ [5]
    rfl rfl).2 5 [] rfl (by norm_num)

/-- C7: `askFreeText` raises on an engine `{ error }` with a message
embedding the reason and description; on success it returns the
contained text when the answer content is `free_text`, and otherwise
raises an unexpected-type error built only from the type tag. -/
theorem askFreeText_unwrap (cenv : CreateResponse) (penv : PollEnv)
    (s : String) (b : Option String) (opts : Option AskOptions)
    (fuel : Nat) :
    (∀ e, (ask cenv penv (freeTextQuestion s b) opts fuel).1 =
        some (Result.error e) →
      askFreeText cenv penv s b opts fuel =
        some (Except.error ("WaitHuman Error: " ++ e.reason.text ++ " " ++
          e.description.getD "")))
    ∧ (∀ ans t, (ask cenv penv (freeTextQuestion s b) opts fuel).1 =
        some (Result.data ans) →
      ans.answer.answer_content = AnswerContent.free_text t →
      askFreeText cenv penv s b opts fuel = some (Except.ok t))
    ∧ (∀ ans sel, (ask cenv penv (freeTextQuestion s b) opts fuel).1 =
        some (Result.data ans) →
      ans.answer.answer_content = AnswerContent.options sel →
      askFreeText cenv penv s b opts fuel =
        some (Except.error
          "Unexpected answer type: options. Expected \x27free_text\x27.")) := by
  refine ⟨?_, ?_, ?_⟩
  · intro e h
    simp [askFreeText, h, errorMessage]
  · intro ans t h hcontent
    simp [askFreeText, h, hcontent]
  · intro ans sel h hcontent
    simp [askFreeText, h, hcontent, AnswerContent.typeName]

theorem askFreeText_unwrap_witness :
    askFreeText (CreateResponse.resp false "" (some ⟨"cid"⟩))
      ⟨fun _ => PollResponse.resp false ""
        (some ⟨some ⟨⟨AnswerContent.options [1]⟩⟩⟩), fun _ => 0⟩
      "s" none none 2 =
      some (Except.error
        "Unexpected answer type: options. Expected \x27free_text\x27.") :=
  (askFreeText_unwrap (CreateResponse.resp false "" (some ⟨"cid"⟩))
    ⟨fun _ => PollResponse.resp false ""
      (some ⟨some ⟨⟨AnswerContent.options [1]⟩⟩⟩), fun _ => 0⟩
    "s" none none 2).2.2 ⟨⟨AnswerContent.options [1]⟩⟩ [1] rfl rfl

lemma createConfirmation_error_reason (cenv : CreateResponse)
    (e : WaitHumanError) (h : createConfirmation cenv = Result.error e) :
    e.reason = ErrorReason.network_error ∨
      e.reason = ErrorReason.create_failed := by
  cases cenv with
  | throws =>
    rw [show createConfirmation CreateResponse.throws =
      Result.error ⟨ErrorReason.network_error, none⟩ from rfl] at h
    injection h with h
    subst h; left; rfl
  | resp err st d =>
    cases err with
    | true =>
      rw [show createConfirmation (CreateResponse.resp true st d) =
        Result.error ⟨ErrorReason.create_failed, some st⟩ from rfl] at h
      injection h with h
      subst h; right; rfl
    | false =>
      cases d with
      | none =>
        rw [show createConfirmation (CreateResponse.resp false st none) =
          Result.error ⟨ErrorReason.create_failed, some st⟩ from rfl] at h
        injection h with h
        subst h; right; rfl
      | some cd =>
        rw [show createConfirmation (CreateResponse.resp false st (some cd)) =
          Result.data cd.confirmation_request_id from rfl] at h
        exact Result.noConfusion h

/-- C8: every error `ask` can return carries one of the reasons
`network_error`, `create_failed`, `poll_failed`, `timeout` — never
`invalid_response` or `unexpected_answer_type`; and a successful poll
response with no non-null answer payload (absent or answerless body)
does not terminate the loop: the iteration records its poll call and the
loop repeats from the deadline check of the next iteration. -/
theorem ask_error_reasons_closed (cenv : CreateResponse) (penv : PollEnv)
    (q : ConfirmationQuestion) (opts : Option AskOptions) (fuel : Nat) :
    (∀ e, (ask cenv penv q opts fuel).1 = some (Result.error e) →
      (e.reason = ErrorReason.network_error ∨
       e.reason = ErrorReason.create_failed ∨
       e.reason = ErrorReason.poll_failed ∨
       e.reason = ErrorReason.timeout)
      ∧ e.reason ≠ ErrorReason.invalid_response
      ∧ e.reason ≠ ErrorReason.unexpected_answer_type)
    ∧ (∀ (env : PollEnv) (cid : String) (t : Option ℚ) (fuel2 n : Nat)
        (st : String) (d : Option PollData),
      timedOut t (env.elapsed n) = false →
      env.responses n = PollResponse.resp false st d →
      pollAnswer d = none →
      pollForAnswer env cid t (fuel2+1) n =
        ((pollForAnswer env cid t fuel2 (n+1)).1,
         NetCall.poll cid :: (pollForAnswer env cid t fuel2 (n+1)).2)) := by
  constructor
  · intro e h
    have main : e.reason = ErrorReason.network_error ∨
        e.reason = ErrorReason.create_failed ∨
        e.reason = ErrorReason.poll_failed ∨
        e.reason = ErrorReason.timeout := by
      cases hc : createConfirmation cenv with
      | error e2 =>
        rw [show (ask cenv penv q opts fuel).1 = some (Result.error e2) from
          by simp [ask, hc]] at h
        simp only [Option.some.injEq, Result.error.injEq] at h
        rw [← h]
        rcases createConfirmation_error_reason cenv e2 hc with h' | h'
        · left; exact h'
        · right; left; exact h'
      | data cid =>
        rw [show (ask cenv penv q opts fuel).1 =
            (pollForAnswer penv cid (askTimeout opts) fuel 0).1 from
          by simp [ask, hc]] at h
        rcases pollForAnswer_error_reason penv cid (askTimeout opts) fuel 0 e h
          with h' | h' | h'
        · right; right; right; exact h'
        · left; exact h'
        · right; right; left; exact h'
    refine ⟨main, ?_, ?_⟩ <;>
      rcases main with h' | h' | h' | h' <;> simp [h']
  · intro env cid t fuel2 n st d h1 h2 h3
    exact pollForAnswer_step env cid t fuel2 n st d h1 h2 h3

theorem ask_error_reasons_closed_witness :
    (((⟨ErrorReason.network_error, none⟩ : WaitHumanError).reason =
        ErrorReason.network_error ∨
      (⟨ErrorReason.network_error, none⟩ : WaitHumanError).reason =
        ErrorReason.create_failed ∨
      (⟨ErrorReason.network_error, none⟩ : WaitHumanError).reason =
        ErrorReason.poll_failed ∨
      (⟨ErrorReason.network_error, none⟩ : WaitHumanError).reason =
        ErrorReason.timeout)
      ∧ (⟨ErrorReason.network_error, none⟩ : WaitHumanError).reason ≠
        ErrorReason.invalid_response
      ∧ (⟨ErrorReason.network_error, none⟩ : WaitHumanError).reason ≠
        ErrorReason.unexpected_answer_type)
    ∧ pollForAnswer ⟨fun _ => PollResponse.resp false "" none, fun _ => 0⟩
        "c" none 1 0 =
      ((pollForAnswer ⟨fun _ => PollResponse.resp false "" none, fun _ => 0⟩
          "c" none 0 1).1,
       NetCall.poll "c" ::
         (pollForAnswer ⟨fun _ => PollResponse.resp false "" none, fun _ => 0⟩
           "c" none 0 1).2) :=
  ⟨(ask_error_reasons_closed CreateResponse.throws
      ⟨fun _ => PollResponse.resp false "" none, fun _ => 0⟩
      ⟨QuestionMethod.push, "s", none, AnswerFormat.free_text⟩ none 1).1
      ⟨ErrorReason.network_error, none⟩ rfl,
   (ask_error_reasons_closed CreateResponse.throws
      ⟨fun _ => PollResponse.resp false "" none, fun _ => 0⟩
      ⟨QuestionMethod.push, "s", none, AnswerFormat.free_text⟩ none 1).2
      ⟨fun _ => PollResponse.resp false "" none, fun _ => 0⟩
      "c" none 0 0 "" none rfl rfl rfl⟩

lemma jsEndsWithSlash_iff (s : String) :
    jsEndsWithSlash s = true ↔ s.data.getLast? = some '/' := by
  unfold jsEndsWithSlash
  cases h : s.data.getLast? with
  | none => simp
  | some c => simp [beq_iff_eq]

lemma dropLast_append_slash (l : List Char) (h : l.getLast? = some '/') :
    l.dropLast ++ ['/'] = l := by
  cases l with
  | nil => simp at h
  | cons a as =>
    have hne : (a :: as) ≠ [] := by simp
    rw [List.getLast?_eq_getLast _ hne] at h
    injection h with h
    rw [← h]
    exact List.dropLast_append_getLast hne

/-- C9 counterexample: with `apiKey` present but empty, construction
still fails, so failing is not equivalent to the key being absent. -/
theorem mkWaitHuman_apiKey_cex :
    mkWaitHuman (some "") (some "http://x") =
      Except.error "apiKey is mandatory" ∧
    (some "" : Option String) ≠ none :=
  ⟨rfl, by simp⟩

/-- C9 (amended): construction fails exactly when the apiKey is absent
or empty; on success the endpoint handed to the client is the default
`https://api.waithuman.com` when none is configured, and otherwise the
configured endpoint, unchanged when it has no trailing slash and with
its final slash removed when it has one. -/
theorem mkWaitHuman_config :
    (∀ (k e : Option String),
      (∃ f, mkWaitHuman k e = Except.ok f) ↔ ¬(k = none ∨ k = some "")) ∧
    (∀ (key : String) (f : FacadeState),
      mkWaitHuman (some key) none = Except.ok f →
      f.endpoint = "https://api.waithuman.com") ∧
    (∀ (key ep : String) (f : FacadeState),
      mkWaitHuman (some key) (some ep) = Except.ok f →
      (jsEndsWithSlash ep = false → f.endpoint = ep) ∧
      (jsEndsWithSlash ep = true → f.endpoint.data ++ ['/'] = ep.data)) := by
  refine ⟨?_, ?_, ?_⟩
  · intro k e
    cases k with
    | none => simp [mkWaitHuman]
    | some s =>
      by_cases hs : s = ""
      · subst hs; simp [mkWaitHuman]
      · simp [mkWaitHuman, hs]
  · intro key f h
    by_cases hk : key = ""
    · subst hk
      rw [show mkWaitHuman (some "") none =
        Except.error "apiKey is mandatory" from rfl] at h
      exact Except.noConfusion h
    · rw [show mkWaitHuman (some key) none = Except.ok
        ⟨key, normalizeEndpoint DEFAULT_BACKEND_ENDPOINT⟩ from
        by simp [mkWaitHuman, hk]] at h
      injection h with h
      subst h
      rfl
  · intro key ep f h
    by_cases hk : key = ""
    · subst hk
      rw [show mkWaitHuman (some "") (some ep) =
        Except.error "apiKey is mandatory" from rfl] at h
      exact Except.noConfusion h
    · rw [show mkWaitHuman (some key) (some ep) = Except.ok
        ⟨key, normalizeEndpoint ep⟩ from by simp [mkWaitHuman, hk]] at h
      injection h with h
      subst h
      constructor
      · intro hf
        simp [normalizeEndpoint, hf]
      · intro htr
        simp only [normalizeEndpoint, htr, if_true, jsDropLastChar]
        exact dropLast_append_slash ep.data ((jsEndsWithSlash_iff ep).mp htr)

theorem mkWaitHuman_config_witness :
    (⟨"k", "http://x"⟩ : FacadeState).endpoint.data ++ ['/'] =
      "http://x/".data ∧
    (⟨"k", "https://api.waithuman.com"⟩ : FacadeState).endpoint =
      "https://api.waithuman.com" :=
  ⟨(mkWaitHuman_config.2.2 "k" "http://x/" ⟨"k", "http://x"⟩ rfl).2 rfl,
   mkWaitHuman_config.2.1 "k" ⟨"k", "https://api.waithuman.com"⟩ rfl⟩

/-- C10: the constructor strips at most one trailing slash: on an
endpoint whose last character is a slash exactly that character is
removed (so an endpoint ending in two slashes still ends in one), and an
endpoint not ending in a slash is used unchanged. -/
theorem normalizeEndpoint_strips_one :
    (∀ e : String, e.data.getLast? = some '/' →
      (normalizeEndpoint e).data = e.data.dropLast ∧
      (normalizeEndpoint e).data ++ ['/'] = e.data) ∧
    (∀ l : List Char,
      (normalizeEndpoint (String.mk (l ++ ['/', '/']))).data.getLast? =
        some '/') ∧
    (∀ e : String, e.data.getLast? ≠ some '/' → normalizeEndpoint e = e) := by
  refine ⟨?_, ?_, ?_⟩
  · intro e h
    have hb : jsEndsWithSlash e = true := (jsEndsWithSlash_iff e).mpr h
    constructor
    · simp [normalizeEndpoint, hb, jsDropLastChar]
    · simp only [normalizeEndpoint, hb, if_true, jsDropLastChar]
      exact dropLast_append_slash e.data h
  · intro l
    have hlast : (l ++ ['/', '/']).getLast? = some '/' := by
      rw [show l ++ ['/', '/'] = (l ++ ['/']) ++ ['/'] from by
        simp [List.append_assoc]]
      exact List.getLast?_concat _
    have hb : jsEndsWithSlash (String.mk (l ++ ['/', '/'])) = true :=
      (jsEndsWithSlash_iff _).mpr hlast
    simp only [normalizeEndpoint, hb, if_true, jsDropLastChar]
    rw [show l ++ ['/', '/'] = (l ++ ['/']) ++ ['/'] from by
      simp [List.append_assoc]]
    rw [show ((l ++ ['/']) ++ ['/'] : List Char).dropLast = l ++ ['/'] from
      List.dropLast_concat]
    exact List.getLast?_concat _
  · intro e h
    have hb : jsEndsWithSlash e = false := by
      rw [← Bool.not_eq_true, jsEndsWithSlash_iff]
      exact h
    simp [normalizeEndpoint, hb]

theorem normalizeEndpoint_strips_one_witness :
    ((normalizeEndpoint "a/").data = "a/".data.dropLast ∧
      (normalizeEndpoint "a/").data ++ ['/'] = "a/".data) ∧
    normalizeEndpoint "ab" = "ab" :=
  ⟨normalizeEndpoint_strips_one.1 "a/" rfl,
   normalizeEndpoint_strips_one.2.2 "ab" (by decide)⟩

end WaitHumanSpec
